import Mathlib

/-
  Verification of the cache-aside post-listing subsystem of the blog-api
  repository (src/controllers/post-controller.js, the redis-caching revision,
  together with utils/cache-utils.js, utils/constants.js, utils/log-utils.js,
  utils/input-validator.js and utils/helpers.js).

  The JavaScript handlers are shallowly embedded as pure Lean functions over
  an explicit state (document database + key-value cache).  Every externally
  visible action of a handler (redis get / setEx / keys / del, database
  find / count / create / save / deleteOne, response writes) is recorded in an
  effect trace, and thrown ApiError values (forwarded by express-async-handler
  to the error middleware) are modelled with Except.
-/

namespace Blog

/-- HTTP status codes used by the controller, from utils/log-utils.js
(exports.status).  Note VALIDATION_ERROR is 400 in the source. -/
def OK : Nat := 200

/-- 201 Created, from utils/log-utils.js. -/
def CREATED : Nat := 201

/-- 400, from utils/log-utils.js (VALIDATION_ERROR: 400). -/
def VALIDATION_ERROR : Nat := 400

/-- 401, from utils/log-utils.js. -/
def UNAUTHORIZED : Nat := 401

/-- 403, from utils/log-utils.js. -/
def FORBIDDEN : Nat := 403

/-- 404, from utils/log-utils.js. -/
def NOT_FOUND : Nat := 404

/-- From utils/constants.js: MAX_POST_TITLE_LENGTH. -/
def MAX_POST_TITLE_LENGTH : Nat := 100

/-- From utils/constants.js: MAX_POST_CONTENT_LENGTH. -/
def MAX_POST_CONTENT_LENGTH : Nat := 5000

/-- From utils/constants.js: POSTS_PER_PAGE_LIMIT. -/
def POSTS_PER_PAGE_LIMIT : Nat := 10

/-- A Post document (models/post-schema.js): _id, title, content, author_id,
and the timestamps-generated createdAt (modelled as a Nat instant). -/
structure Post where
  id : String
  title : String
  content : String
  author_id : String
  createdAt : Nat
deriving DecidableEq

/-- A User document, restricted to the fields the post controller reads
(_id and username). -/
structure User where
  id : String
  username : String
deriving DecidableEq

/-- A post item as returned by getAllPosts, where author_id was populated
with the matching user document restricted to its username field
(Post.find().populate applied to author_id selecting username). -/
structure PostView where
  id : String
  title : String
  content : String
  author : Option User
  createdAt : Nat
deriving DecidableEq

/-- The responseData of getAllPosts:
allPosts, page, totalPages, totalPosts. -/
structure AllListing where
  allPosts : List PostView
  page : Int
  totalPages : Nat
  totalPosts : Nat
deriving DecidableEq

/-- The responseData of getAllPostsByUser:
userPosts, page, totalPages, totalPosts. -/
structure UserListing where
  userPosts : List Post
  page : Int
  totalPages : Nat
  totalPosts : Nat
deriving DecidableEq

/-- A value stored in the redis cache.  The source stores
JSON.stringify(responseData) and reads it back with JSON.parse; for these
record types the stringify/parse round trip is faithful, so the embedding
stores the structured value itself. -/
inductive CacheVal where
  | allListing (l : AllListing)
  | userListing (l : UserListing)
deriving DecidableEq

/-- The redis key-value store, as an association list from keys to cached
values (first binding for a key wins on lookup). -/
abbrev Cache : Type := List (String × CacheVal)

/-- The document database: the User and Post collections. -/
structure Db where
  users : List User
  posts : List Post
deriving DecidableEq

/-- The shared mutable state a handler can read and write:
the document database and the redis cache. -/
structure St where
  db : Db
  cache : Cache
deriving DecidableEq

/-- redis GET on the association-list cache. -/
def cacheGetVal : Cache → String → Option CacheVal
  | [], _ => none
  | (k, v) :: rest, key => if k == key then some v else cacheGetVal rest key

/-- redis SETEX: bind the key to the value (replacing any previous binding). -/
def cacheSetVal (c : Cache) (key : String) (v : CacheVal) : Cache :=
  (key, v) :: (c : List (String × CacheVal)).filter (fun kv => !(kv.1 == key))

/-- All suffixes of a character list, longest first (the list itself down to
the empty list). -/
def suffixes : List Char → List (List Char)
  | [] => [[]]
  | c :: cs => (c :: cs) :: suffixes cs

/-- Redis glob matching for KEYS, for the star and question-mark wildcards
(the only pattern forms the repository uses are literal prefixes followed by
a trailing star): a star matches an arbitrary sequence of characters, a
question mark exactly one, all other characters themselves. -/
def globMatch : List Char → List Char → Bool
  | [], cs => cs.isEmpty
  | '*' :: ps, cs => (suffixes cs).any (fun t => globMatch ps t)
  | '?' :: ps, _ :: cs => globMatch ps cs
  | p :: ps, c :: cs => (p == c) && globMatch ps cs
  | _ :: _, [] => false

/-- Glob matching lifted to strings: does the key match the pattern? -/
def globMatchStr (pat key : String) : Bool :=
  globMatch pat.toList key.toList

/-- redis KEYS: the cache keys matching the pattern (in store order). -/
def matchingKeys (pat : String) (c : Cache) : List String :=
  ((c : List (String × CacheVal)).filter
    (fun kv => globMatchStr pat kv.1)).map (fun kv => kv.1)

/-- clearCacheForKey from src/services/caching/cache-utils.js: list the keys
matching the pattern with redis KEYS, then delete each.  The resulting cache
retains exactly the entries whose key does not match. -/
def clearCacheForKey (pat : String) (c : Cache) : Cache :=
  (c : List (String × CacheVal)).filter (fun kv => !(globMatchStr pat kv.1))

/-- clearPostCache from utils/cache-utils.js: redisClient.keys of the literal
pattern posts:page:*, then del of each matched key. -/
def clearPostCache (c : Cache) : Cache :=
  (c : List (String × CacheVal)).filter
    (fun kv => !(globMatchStr "posts:page:*" kv.1))

/-- JavaScript parseInt(s, 10): skip leading whitespace, read an optional
sign, then the longest run of decimal digits; none models NaN (no digits). -/
def jsParseInt (s : String) : Option Int :=
  let cs := s.toList.dropWhile Char.isWhitespace
  match cs with
  | '-' :: rest =>
      let ds := rest.takeWhile Char.isDigit
      if ds.isEmpty then none
      else some (-(Int.ofNat (ds.foldl (fun a c => a * 10 + (c.toNat - 48)) 0)))
  | '+' :: rest =>
      let ds := rest.takeWhile Char.isDigit
      if ds.isEmpty then none
      else some (Int.ofNat (ds.foldl (fun a c => a * 10 + (c.toNat - 48)) 0))
  | _ =>
      let ds := cs.takeWhile Char.isDigit
      if ds.isEmpty then none
      else some (Int.ofNat (ds.foldl (fun a c => a * 10 + (c.toNat - 48)) 0))

/-- The page computation parseInt(request.query.page, 10) or-else 1: an absent
parameter gives NaN, and the or-else replaces the falsy values NaN and 0
(including negative zero) with 1.  Every other integer, negative ones
included, passes through unchanged. -/
def pageOr1 (q : Option String) : Int :=
  match q with
  | none => 1
  | some s =>
      match jsParseInt s with
      | none => 1
      | some n => if n = 0 then 1 else n

/-- Math.ceil(total / limit) for natural total and positive limit, as used
for totalPages (exact for the integer ranges involved). -/
def ceilOfDiv (total limit : Nat) : Nat := (total + limit - 1) / limit

/-- Insert a post into a list already sorted by createdAt descending. -/
def insertDesc (p : Post) : List Post → List Post
  | [] => [p]
  | q :: qs => if p.createdAt ≤ q.createdAt then q :: insertDesc p qs
               else p :: q :: qs

/-- The sort specifier createdAt: -1 (newest first) on a find() query. -/
def sortByCreatedAtDesc (ps : List Post) : List Post :=
  ps.foldr insertDesc []

/-- A paged find: sort by createdAt descending, then skip and limit.  The
skip value is the JavaScript number (page - 1) * POSTS_PER_PAGE_LIMIT and can
be negative; the listing claims never depend on the items returned for a
negative skip, which is clamped here. -/
def findPage (posts : List Post) (skip : Int) (limit : Nat) : List Post :=
  ((sortByCreatedAtDesc posts).drop skip.toNat).take limit

/-- User.findById. -/
def findUserById (users : List User) (i : String) : Option User :=
  users.find? (fun u => u.id == i)

/-- User.findOne on username. -/
def findUserByName (users : List User) (name : String) : Option User :=
  users.find? (fun u => u.username == name)

/-- Post.findById. -/
def findPostById (posts : List Post) (i : String) : Option Post :=
  posts.find? (fun p => p.id == i)

/-- JavaScript String.trim: strip whitespace from both ends. -/
def jsTrim (s : String) : String :=
  ⟨((s.toList.dropWhile Char.isWhitespace).reverse.dropWhile
      Char.isWhitespace).reverse⟩

/-- JavaScript String.toLowerCase on the ASCII usernames involved. -/
def jsToLower (s : String) : String := ⟨s.toList.map Char.toLower⟩

/-- The character class of the username regular expression:
ASCII letters, digits and the underscore. -/
def isWordChar (c : Char) : Bool := c.isAlpha || c.isDigit || c == '_'

/-- The reserved-name list loaded from restricted-usernames.json.  That JSON
file is not present among the sources; a representative list is used here and
no claim depends on its contents (the usernames claims use are ordinary). -/
def restrictedUsernames : List String :=
  ["admin", "administrator", "root", "superuser", "moderator", "support"]

/-- validateUsername from utils/input-validator.js: a string of length 3 to
20 made of word characters only, whose lowercasing is not reserved. -/
def validateUsername (input : String) : Bool :=
  (3 ≤ input.length && input.length ≤ 20) &&
  input.toList.all isWordChar &&
  !(restrictedUsernames.contains (jsToLower input))

/-- The cache key of getAllPosts for a page: posts:page:<n>. -/
def postsPageKey (page : Int) : String := "posts:page:" ++ toString page

/-- The cache key of getAllPostsByUser: posts:user:<username>:page:<n>. -/
def postsUserKey (username : String) (page : Int) : String :=
  "posts:user:" ++ username ++ ":page:" ++ toString page

/-- An externally visible action taken by a handler, in program order:
cache-store operations, persistence-gateway operations, and response
writes (respond carries the status code and, for the listing handlers,
the listing payload written to the response body). -/
inductive Effect where
  | cacheGet (key : String)
  | cacheSetEx (key : String) (ttl : Nat)
  | cacheKeys (pat : String)
  | cacheDel (key : String)
  | dbFindPosts (skip : Int) (limit : Nat)
  | dbCount
  | dbFindUserById (i : String)
  | dbFindUserByName (name : String)
  | dbFindPostById (i : String)
  | dbCreatePost
  | dbSavePost
  | dbDeletePost
  | respond (code : Nat) (body : Option CacheVal)
deriving DecidableEq

/-- Is the effect any persistence-gateway (database) operation? -/
def Effect.isDbOp : Effect → Bool
  | .dbFindPosts _ _ => true
  | .dbCount => true
  | .dbFindUserById _ => true
  | .dbFindUserByName _ => true
  | .dbFindPostById _ => true
  | .dbCreatePost => true
  | .dbSavePost => true
  | .dbDeletePost => true
  | _ => false

/-- Is the effect a database mutation (create, save, or deleteOne)? -/
def Effect.isDbWrite : Effect → Bool
  | .dbCreatePost => true
  | .dbSavePost => true
  | .dbDeletePost => true
  | _ => false

/-- Is the effect part of a cache invalidation (the KEYS listing or a DEL)? -/
def Effect.isInvalidation : Effect → Bool
  | .cacheKeys _ => true
  | .cacheDel _ => true
  | _ => false

/-- Is the effect a response write? -/
def Effect.isRespond : Effect → Bool
  | .respond _ _ => true
  | _ => false

/-- Scan a trace in program order and check that every invalidation effect is
preceded by some database mutation; the accumulator records whether a
mutation has been seen so far. -/
def checkInvAfterMut (seenWrite : Bool) : List Effect → Bool
  | [] => true
  | e :: es =>
      if e.isInvalidation && !seenWrite then false
      else checkInvAfterMut (seenWrite || e.isDbWrite) es

/-- The effect trace of a clearPostCache call: the KEYS listing for the
pattern posts:page:*, then a DEL per matched key. -/
def clearPostCacheTrace (c : Cache) : List Effect :=
  Effect.cacheKeys "posts:page:*" ::
    (matchingKeys "posts:page:*" c).map Effect.cacheDel

/-- A thrown ApiError (message, statusCode, errorCode), from utils/ApiError
as constructed by the controller. -/
structure ApiError where
  message : String
  statusCode : Nat
  code : String
deriving DecidableEq

/-- How a handler invocation can fail: a thrown ApiError, or a rejected
cache-store promise that propagates uncaught through the handler. -/
inductive HErr where
  | api (e : ApiError)
  | cacheErr
deriving DecidableEq

instance {ε α : Type} [DecidableEq ε] [DecidableEq α] :
    DecidableEq (Except ε α) := fun a b =>
  match a, b with
  | .ok x, .ok y =>
      if h : x = y then .isTrue (congrArg Except.ok h)
      else .isFalse (fun hh => h (Except.ok.inj hh))
  | .error x, .error y =>
      if h : x = y then .isTrue (congrArg Except.error h)
      else .isFalse (fun hh => h (Except.error.inj hh))
  | .ok _, .error _ => .isFalse (fun hh => Except.noConfusion hh)
  | .error _, .ok _ => .isFalse (fun hh => Except.noConfusion hh)

/-- The observable outcome of one handler invocation: the result (success
payload or propagated error), the post-state of database and cache, and the
effect trace in program order. -/
structure HOut (α : Type) where
  result : Except HErr α
  st : St
  trace : List Effect

/-- Fault injection for the cache store: does redisClient.get reject, does
redisClient.setEx reject?  (The handlers wrap neither call in try/catch.) -/
structure CacheFaults where
  getFails : Bool
  setFails : Bool
deriving DecidableEq

/-- A healthy cache store: neither get nor setEx rejects. -/
def noFaults : CacheFaults := ⟨false, false⟩

/-- A request body value as seen by the typeof checks: a string, or any
non-string value (number, object, absent). -/
inductive JsVal where
  | str (s : String)
  | other
deriving DecidableEq

/-- Is an optional string parameter falsy in JavaScript (absent or empty)? -/
def jsFalsyStr : Option String → Bool
  | none => true
  | some s => s == ""

/-- The request of createPost: title and content from the body, author_id
from the query string. -/
structure CreateReq where
  title : JsVal
  content : JsVal
  author_id : Option String
deriving DecidableEq

/-- The request of editPost: body fields, the postId route parameter, and
the authenticated user attached to the request (absent when anonymous). -/
structure EditReq where
  title : JsVal
  content : JsVal
  postId : String
  user : Option User
deriving DecidableEq

/-- The request of deletePost. -/
structure DeleteReq where
  postId : String
  user : Option User
deriving DecidableEq

/-- createPost (post-controller.js): check author_id, load the user, validate
title and content, clear the post cache, create the post, respond 201.  The
newId and now arguments model the generated document id and the timestamps
createdAt instant. -/
def createPost (req : CreateReq) (newId : String) (now : Nat) (st : St) :
    HOut (Nat × String × Post) :=
  match req.author_id with
  | none =>
      ⟨.error (.api ⟨"Authentication required to create a post.",
        UNAUTHORIZED, "UNAUTHORIZED_AUTHOR_ID"⟩), st, []⟩
  | some author_id =>
      if author_id == "" then
        ⟨.error (.api ⟨"Authentication required to create a post.",
          UNAUTHORIZED, "UNAUTHORIZED_AUTHOR_ID"⟩), st, []⟩
      else
        match findUserById st.db.users author_id with
        | none =>
            ⟨.error (.api ⟨"No user found with the id: " ++ author_id ++ ".",
              NOT_FOUND, "USER_NOT_FOUND"⟩), st, [.dbFindUserById author_id]⟩
        | some _ =>
            match req.title, req.content with
            | .str title, .str content =>
                let trimmedTitle := jsTrim title
                let trimmedContent := jsTrim content
                if trimmedTitle == "" || trimmedContent == "" then
                  ⟨.error (.api ⟨"Title and content must not be empty.",
                    VALIDATION_ERROR, "EMPTY_TITLE_OR_CONTENT"⟩), st,
                    [.dbFindUserById author_id]⟩
                else if MAX_POST_TITLE_LENGTH < trimmedTitle.length then
                  ⟨.error (.api ⟨"Title must be under 100 characters.",
                    VALIDATION_ERROR, "TITLE_TOO_LONG"⟩), st,
                    [.dbFindUserById author_id]⟩
                else if MAX_POST_CONTENT_LENGTH < trimmedContent.length then
                  ⟨.error (.api ⟨"Content must be under 5000 characters.",
                    VALIDATION_ERROR, "CONTENT_TOO_LONG"⟩), st,
                    [.dbFindUserById author_id]⟩
                else
                  let post : Post :=
                    ⟨newId, trimmedTitle, trimmedContent, author_id, now⟩
                  ⟨.ok (CREATED, "Post created successfully.", post),
                    ⟨⟨st.db.users, st.db.posts ++ [post]⟩,
                      clearPostCache st.cache⟩,
                    [Effect.dbFindUserById author_id] ++
                      clearPostCacheTrace st.cache ++
                      [.dbCreatePost, .respond CREATED none]⟩
            | _, _ =>
                ⟨.error (.api ⟨"Title and content must be strings.",
                  VALIDATION_ERROR, "INVALID_INPUT_TYPE"⟩), st,
                  [.dbFindUserById author_id]⟩

/-- getAllPosts (post-controller.js): parse the page, compose the cache key,
try redis get (a rejection propagates), on a hit respond with the parsed
cached value, on a miss run the paged find and the count, build the
responseData, setEx it for 3600 seconds (a rejection propagates) and
respond with it. -/
def getAllPosts (pageParam : Option String) (faults : CacheFaults)
    (st : St) : HOut (Nat × String × CacheVal) :=
  let page := pageOr1 pageParam
  let skip : Int := (page - 1) * (POSTS_PER_PAGE_LIMIT : Nat)
  let cacheKey := postsPageKey page
  if faults.getFails then
    ⟨.error .cacheErr, st, [.cacheGet cacheKey]⟩
  else
    match cacheGetVal st.cache cacheKey with
    | some cached =>
        ⟨.ok (OK, "Posts fetched successfully from cache.", cached), st,
          [.cacheGet cacheKey, .respond OK (some cached)]⟩
    | none =>
        let allPosts :=
          (findPage st.db.posts skip POSTS_PER_PAGE_LIMIT).map
            (fun p => PostView.mk p.id p.title p.content
              (findUserById st.db.users p.author_id) p.createdAt)
        let total := st.db.posts.length
        let responseData : AllListing :=
          ⟨allPosts, page, ceilOfDiv total POSTS_PER_PAGE_LIMIT, total⟩
        if faults.setFails then
          ⟨.error .cacheErr, st,
            [.cacheGet cacheKey, .dbFindPosts skip POSTS_PER_PAGE_LIMIT,
              .dbCount, .cacheSetEx cacheKey 3600]⟩
        else
          ⟨.ok (OK, "Posts fetched successfully.",
              .allListing responseData),
            ⟨st.db,
              cacheSetVal st.cache cacheKey (.allListing responseData)⟩,
            [.cacheGet cacheKey, .dbFindPosts skip POSTS_PER_PAGE_LIMIT,
              .dbCount, .cacheSetEx cacheKey 3600,
              .respond OK (some (.allListing responseData))]⟩

/-- getAllPostsByUser (post-controller.js): validate the username, compose
the user-scoped cache key, try redis get, on a hit respond with the cached
value, on a miss load the user (404 when absent), run the filtered paged
find and count, setEx the responseData, then write the response TWICE: once
with response.status(OK).json(responseData) and once more through
sendSuccessResponse with the same responseData. -/
def getAllPostsByUser (usernameParam : Option String)
    (pageParam : Option String) (faults : CacheFaults) (st : St) :
    HOut (Nat × String × CacheVal) :=
  let page := pageOr1 pageParam
  if jsFalsyStr usernameParam then
    ⟨.error (.api ⟨"Username must be provided.", VALIDATION_ERROR,
      "USERNAME_REQUIRED"⟩), st, []⟩
  else
    let username := usernameParam.getD ""
    if !(validateUsername username) then
      ⟨.error (.api ⟨"Invalid username format.", VALIDATION_ERROR,
        "INVALID_USERNAME_FORMAT"⟩), st, []⟩
    else
      let cacheKey := postsUserKey username page
      if faults.getFails then
        ⟨.error .cacheErr, st, [.cacheGet cacheKey]⟩
      else
        match cacheGetVal st.cache cacheKey with
        | some cachedData =>
            ⟨.ok (OK, "Posts for user " ++ username ++ " on page " ++
                toString page ++ " fetched from cache.", cachedData), st,
              [.cacheGet cacheKey, .respond OK (some cachedData)]⟩
        | none =>
            let skip : Int := (page - 1) * (POSTS_PER_PAGE_LIMIT : Nat)
            match findUserByName st.db.users username with
            | none =>
                ⟨.error (.api ⟨"User with username " ++ username ++
                    " not found.", NOT_FOUND, "USER_NOT_FOUND"⟩), st,
                  [.cacheGet cacheKey, .dbFindUserByName username]⟩
            | some userDB =>
                let authored :=
                  st.db.posts.filter (fun p => p.author_id == userDB.id)
                let userPosts := findPage authored skip POSTS_PER_PAGE_LIMIT
                let totalPosts := authored.length
                let responseData : UserListing :=
                  ⟨userPosts, page,
                    ceilOfDiv totalPosts POSTS_PER_PAGE_LIMIT, totalPosts⟩
                if faults.setFails then
                  ⟨.error .cacheErr, st,
                    [.cacheGet cacheKey, .dbFindUserByName username,
                      .dbFindPosts skip POSTS_PER_PAGE_LIMIT, .dbCount,
                      .cacheSetEx cacheKey 3600]⟩
                else
                  ⟨.ok (OK, "Posts for user " ++ username ++ " on page " ++
                      toString page ++ " fetched successfully!",
                      .userListing responseData),
                    ⟨st.db, cacheSetVal st.cache cacheKey
                      (.userListing responseData)⟩,
                    [.cacheGet cacheKey, .dbFindUserByName username,
                      .dbFindPosts skip POSTS_PER_PAGE_LIMIT, .dbCount,
                      .cacheSetEx cacheKey 3600,
                      .respond OK (some (.userListing responseData)),
                      .respond OK (some (.userListing responseData))]⟩

/-- editPost (post-controller.js): check authentication, validate the body,
load the post (404 when absent), check ownership (403), clear the post
cache, save the updated document, respond 200. -/
def editPost (req : EditReq) (st : St) : HOut (Nat × String × Post) :=
  let userId := (req.user.map User.id).getD ""
  if userId == "" then
    ⟨.error (.api ⟨"Authentication required to edit a post.",
      UNAUTHORIZED, "UNAUTHORIZED_EDIT"⟩), st, []⟩
  else
    match req.title, req.content with
    | .str title, .str content =>
        let trimmedTitle := jsTrim title
        let trimmedContent := jsTrim content
        if trimmedTitle == "" || trimmedContent == "" then
          ⟨.error (.api ⟨"Title and content must not be empty.",
            VALIDATION_ERROR, "EMPTY_TITLE_OR_CONTENT"⟩), st, []⟩
        else if MAX_POST_TITLE_LENGTH < trimmedTitle.length then
          ⟨.error (.api ⟨"Title must be under 100 characters.",
            VALIDATION_ERROR, "TITLE_TOO_LONG"⟩), st, []⟩
        else if MAX_POST_CONTENT_LENGTH < trimmedContent.length then
          ⟨.error (.api ⟨"Content must be under 5000 characters.",
            VALIDATION_ERROR, "CONTENT_TOO_LONG"⟩), st, []⟩
        else
          match findPostById st.db.posts req.postId with
          | none =>
              ⟨.error (.api ⟨"Post with id " ++ req.postId ++ " not found.",
                NOT_FOUND, "POST_NOT_FOUND"⟩), st,
                [.dbFindPostById req.postId]⟩
          | some post =>
              if !(post.author_id == userId) then
                ⟨.error (.api ⟨"Forbidden edit.", FORBIDDEN,
                  "FORBIDDEN_EDIT"⟩), st, [.dbFindPostById req.postId]⟩
              else
                let updated : Post :=
                  ⟨post.id, trimmedTitle, trimmedContent,
                    post.author_id, post.createdAt⟩
                ⟨.ok (OK, "Post updated successfully.", updated),
                  ⟨⟨st.db.users,
                      st.db.posts.map (fun p =>
                        if p.id == req.postId then
                          ⟨p.id, trimmedTitle, trimmedContent,
                            p.author_id, p.createdAt⟩
                        else p)⟩,
                    clearPostCache st.cache⟩,
                  [Effect.dbFindPostById req.postId] ++
                    clearPostCacheTrace st.cache ++
                    [.dbSavePost, .respond OK none]⟩
    | _, _ =>
        ⟨.error (.api ⟨"Title and content must be strings.",
          VALIDATION_ERROR, "INVALID_INPUT_TYPE"⟩), st, []⟩

/-- deletePost (post-controller.js): check authentication, load the post
(404 when absent), check ownership (403), clear the post cache, deleteOne
the document, respond 200. -/
def deletePost (req : DeleteReq) (st : St) : HOut (Nat × String × Post) :=
  let userId := (req.user.map User.id).getD ""
  if userId == "" then
    ⟨.error (.api ⟨"Authentication required to delete a post.",
      UNAUTHORIZED, "UNAUTHORIZED_DELETE"⟩), st, []⟩
  else
    match findPostById st.db.posts req.postId with
    | none =>
        ⟨.error (.api ⟨"Post with id " ++ req.postId ++ " not found.",
          NOT_FOUND, "POST_NOT_FOUND"⟩), st, [.dbFindPostById req.postId]⟩
    | some post =>
        if !(post.author_id == userId) then
          ⟨.error (.api ⟨"Forbidden delete.", FORBIDDEN,
            "FORBIDDEN_DELETE"⟩), st, [.dbFindPostById req.postId]⟩
        else
          ⟨.ok (OK, "Post deleted successfully.", post),
            ⟨⟨st.db.users,
                st.db.posts.eraseP (fun p => p.id == post.id)⟩,
              clearPostCache st.cache⟩,
            [Effect.dbFindPostById req.postId] ++
              clearPostCacheTrace st.cache ++
              [.dbDeletePost, .respond OK none]⟩

/-! Concrete fixtures used by counterexamples and witnesses. -/

/-- A sample author (username alice). -/
def user1 : User := ⟨"u1", "alice"⟩

/-- A sample post by user1. -/
def post1 : Post := ⟨"p1", "Hello", "World", "u1", 5⟩

/-- A state with one user, one post, and an empty cache. -/
def st1 : St := ⟨⟨[user1], [post1]⟩, []⟩

/-- A cached global-listing page value. -/
def vAll : CacheVal := .allListing ⟨[], 1, 1, 1⟩

/-- A cached author-scoped page value for alice. -/
def vAlice : CacheVal := .userListing ⟨[], 1, 1, 1⟩

/-- A state whose cache holds one global-listing page and one alice-scoped
page. -/
def st2 : St :=
  ⟨⟨[user1], [post1]⟩,
    [("posts:page:1", vAll), ("posts:user:alice:page:1", vAlice)]⟩

/-- The pagination invariant of a listing payload: totalPages is the
ceiling of totalPosts over the page size, and at most POSTS_PER_PAGE_LIMIT
items are carried. -/
def listingOK : CacheVal → Prop
  | .allListing l =>
      l.totalPages = ceilOfDiv l.totalPosts POSTS_PER_PAGE_LIMIT
      ∧ l.allPosts.length ≤ POSTS_PER_PAGE_LIMIT
  | .userListing l =>
      l.totalPages = ceilOfDiv l.totalPosts POSTS_PER_PAGE_LIMIT
      ∧ l.userPosts.length ≤ POSTS_PER_PAGE_LIMIT

/-- Every value currently stored in the cache satisfies the pagination
invariant (true of every cache the listing handlers populate). -/
def cacheOK (c : Cache) : Prop := ∀ kv ∈ c, listingOK kv.2

/-- The totalPages field of a successful listing result. -/
def resultTotalPages : Except HErr (Nat × String × CacheVal) → Option Nat
  | .ok (_, _, .allListing l) => some l.totalPages
  | .ok (_, _, .userListing l) => some l.totalPages
  | .error _ => none

/-- The totalPosts field of a successful listing result. -/
def resultTotalPosts : Except HErr (Nat × String × CacheVal) → Option Nat
  | .ok (_, _, .allListing l) => some l.totalPosts
  | .ok (_, _, .userListing l) => some l.totalPosts
  | .error _ => none

/-- The number of items of a successful listing result. -/
def resultItemCount : Except HErr (Nat × String × CacheVal) → Option Nat
  | .ok (_, _, .allListing l) => some l.allPosts.length
  | .ok (_, _, .userListing l) => some l.userPosts.length
  | .error _ => none

/-- Looking a key up in a filtered cache returns the same binding as in the
unfiltered cache whenever the filter keeps every entry carrying that key. -/
theorem cacheGetVal_filter_of_keep (c : Cache) (key : String)
    (p : String × CacheVal → Bool) (hp : ∀ v, p (key, v) = true) :
    cacheGetVal (c.filter p) key = cacheGetVal c key := by
  induction c with
  | nil => rfl
  | cons kv rest ih =>
      rcases kv with ⟨k, v⟩
      by_cases hk : (k == key) = true
      · have hkk : k = key := by simpa using hk
        subst hkk
        simp [List.filter_cons, hp v, cacheGetVal, ih]
      · by_cases hpv : p (k, v) = true <;>
          simp [List.filter_cons, hpv, cacheGetVal, hk, ih]

/-- C1 (code-bug exhibit): on successful createPost, editPost and deletePost
invocations the cache invalidation (the redis KEYS call on posts:page:*)
appears in the effect trace strictly BEFORE the database mutation
(Post.create, post.save, post.deleteOne), so the checkInvAfterMut scan
rejects all three traces.  The claim, the spec, and the handlers' own doc
comments require the invalidation to happen only after the mutation. -/
theorem c1_invalidation_precedes_mutation :
    ((createPost ⟨.str "T", .str "C", some "u1"⟩ "p9" 10 st1).result =
        .ok (CREATED, "Post created successfully.", ⟨"p9", "T", "C", "u1", 10⟩)
      ∧ (createPost ⟨.str "T", .str "C", some "u1"⟩ "p9" 10 st1).trace =
          [.dbFindUserById "u1", .cacheKeys "posts:page:*", .dbCreatePost,
            .respond CREATED none]
      ∧ checkInvAfterMut false
          (createPost ⟨.str "T", .str "C", some "u1"⟩ "p9" 10 st1).trace
          = false)
  ∧ ((editPost ⟨.str "T2", .str "C2", "p1", some user1⟩ st1).result =
        .ok (OK, "Post updated successfully.", ⟨"p1", "T2", "C2", "u1", 5⟩)
      ∧ (editPost ⟨.str "T2", .str "C2", "p1", some user1⟩ st1).trace =
          [.dbFindPostById "p1", .cacheKeys "posts:page:*", .dbSavePost,
            .respond OK none]
      ∧ checkInvAfterMut false
          (editPost ⟨.str "T2", .str "C2", "p1", some user1⟩ st1).trace
          = false)
  ∧ ((deletePost ⟨"p1", some user1⟩ st1).result =
        .ok (OK, "Post deleted successfully.", post1)
      ∧ (deletePost ⟨"p1", some user1⟩ st1).trace =
          [.dbFindPostById "p1", .cacheKeys "posts:page:*", .dbDeletePost,
            .respond OK none]
      ∧ checkInvAfterMut false
          (deletePost ⟨"p1", some user1⟩ st1).trace = false) := by
  decide

/-- C2 (counterexample): a successful deletePost by alice on a state whose
cache holds both a global page and the alice-scoped page leaves the
alice-scoped key posts:user:alice:page:1 bound, and a subsequent
getAllPostsByUser for alice is answered from the cache with no
persistence-gateway operation at all, refuting the claim that the
invalidation purges the author-scoped pattern as well. -/
theorem c2_author_scoped_keys_survive :
    (deletePost ⟨"p1", some user1⟩ st2).result =
      .ok (OK, "Post deleted successfully.", post1)
  ∧ cacheGetVal (deletePost ⟨"p1", some user1⟩ st2).st.cache
      "posts:user:alice:page:1" = some vAlice
  ∧ ((getAllPostsByUser (some "alice") none noFaults
        (deletePost ⟨"p1", some user1⟩ st2).st).trace.all
      (fun e => !e.isDbOp)) = true := by
  decide

/-- C2 (amended): the invalidation run by createPost and deletePost purges
exactly the cache keys matching the global pattern posts:page:*; every key
of the author-scoped form posts:user:... does not match that pattern and
keeps its binding, so a subsequent getAllPostsByUser for that author can
still be served from the (possibly stale) cache. -/
theorem c2_amended_only_global_pattern_purged (c : Cache) (k : String)
    (v : CacheVal) (rest : String) :
    ((k, v) ∈ clearPostCache c ↔
      (k, v) ∈ c ∧ globMatchStr "posts:page:*" k = false)
  ∧ globMatchStr "posts:page:*" ("posts:user:" ++ rest) = false
  ∧ cacheGetVal (clearPostCache c) ("posts:user:" ++ rest) =
      cacheGetVal c ("posts:user:" ++ rest) := by
  have hglob : ∀ r : String,
      globMatchStr "posts:page:*" ("posts:user:" ++ r) = false := by
    intro r
    rcases r with ⟨l⟩
    rfl
  refine ⟨?_, hglob rest, ?_⟩
  · simp [clearPostCache, List.mem_filter]
  · exact cacheGetVal_filter_of_keep c _ _ (fun w => by simp [hglob rest])

/-- Witness for c2_amended_only_global_pattern_purged at a concrete cache. -/
theorem c2_amended_witness :
    (("posts:user:alice:page:1", vAlice) ∈
        clearPostCache [("posts:page:1", vAll),
          ("posts:user:alice:page:1", vAlice)] ↔
      ("posts:user:alice:page:1", vAlice) ∈
        ([("posts:page:1", vAll), ("posts:user:alice:page:1", vAlice)] : Cache)
      ∧ globMatchStr "posts:page:*" "posts:user:alice:page:1" = false)
  ∧ globMatchStr "posts:page:*" ("posts:user:" ++ "alice:page:1") = false
  ∧ cacheGetVal (clearPostCache [("posts:page:1", vAll),
        ("posts:user:alice:page:1", vAlice)])
      ("posts:user:" ++ "alice:page:1") =
    cacheGetVal [("posts:page:1", vAll), ("posts:user:alice:page:1", vAlice)]
      ("posts:user:" ++ "alice:page:1") := by
  have h := c2_amended_only_global_pattern_purged
    [("posts:page:1", vAll), ("posts:user:alice:page:1", vAlice)]
    "posts:user:alice:page:1" vAlice "alice:page:1"
  exact h

/-- C7: the invalidation primitive clearCacheForKey is idempotent (running it
twice on the same pattern leaves the same final cache as running it once),
and when no key matches the pattern (the redis KEYS listing is empty) it is
a no-op returning the cache unchanged; being a total function it completes
without error in every case. -/
theorem c7_invalidate_idempotent_noop (pat : String) (c : Cache) :
    clearCacheForKey pat (clearCacheForKey pat c) = clearCacheForKey pat c
  ∧ (matchingKeys pat c = [] → clearCacheForKey pat c = c) := by
  constructor
  · simp [clearCacheForKey, List.filter_filter]
  · intro h
    have hnil : (c : List (String × CacheVal)).filter
        (fun kv => globMatchStr pat kv.1) = [] := by
      have := List.map_eq_nil_iff.mp h
      exact this
    have hall := List.filter_eq_nil_iff.mp hnil
    exact List.filter_eq_self.mpr (fun kv hm => by
      simp [hall kv hm])

/-- Witness for c7_invalidate_idempotent_noop: on a cache holding only an
author-scoped key, invalidating posts:page:* twice equals invalidating once,
and since nothing matches, the invalidation is a no-op. -/
theorem c7_witness :
    (clearCacheForKey "posts:page:*"
        (clearCacheForKey "posts:page:*" [("posts:user:alice:page:1", vAlice)])
      = clearCacheForKey "posts:page:*" [("posts:user:alice:page:1", vAlice)])
  ∧ clearCacheForKey "posts:page:*" [("posts:user:alice:page:1", vAlice)] =
      [("posts:user:alice:page:1", vAlice)] := by
  have h := c7_invalidate_idempotent_noop "posts:page:*"
    [("posts:user:alice:page:1", vAlice)]
  exact ⟨h.1, h.2 (by decide)⟩

/-- C3 (counterexample): with a rejecting redis get, getAllPosts on the
one-post state propagates the cache error as the request outcome without a
single persistence-gateway operation (no database fallback), and
getAllPostsByUser for alice does the same, refuting the claim that a cache
failure never fails the request. -/
theorem c3_cache_failure_fails_request :
    (getAllPosts none ⟨true, false⟩ st1).result = .error .cacheErr
  ∧ ((getAllPosts none ⟨true, false⟩ st1).trace.all
      (fun e => !e.isDbOp)) = true
  ∧ (getAllPostsByUser (some "alice") none ⟨true, false⟩ st1).result =
      .error .cacheErr := by
  decide

/-- C3 (amended): the listing handlers wrap no cache-store call in a
try/catch, so a rejected redis get propagates out of both handlers as the
request outcome with no database fallback (and the state unchanged), and on
a cache miss a rejected redis setEx likewise fails the request even though
the database was already read. -/
theorem c3_amended_cache_errors_propagate (q : Option String) (st : St)
    (u : String) (userDB : User)
    (hval : validateUsername u = true)
    (hmissUser : cacheGetVal st.cache (postsUserKey u (pageOr1 q)) = none)
    (hfind : findUserByName st.db.users u = some userDB) :
    ((getAllPosts q ⟨true, false⟩ st).result = .error .cacheErr
      ∧ ((getAllPosts q ⟨true, false⟩ st).trace.all
          (fun e => !e.isDbOp)) = true
      ∧ (getAllPosts q ⟨true, false⟩ st).st = st)
  ∧ (cacheGetVal st.cache (postsPageKey (pageOr1 q)) = none →
      (getAllPosts q ⟨false, true⟩ st).result = .error .cacheErr)
  ∧ ((getAllPostsByUser (some u) q ⟨true, false⟩ st).result =
      .error .cacheErr)
  ∧ ((getAllPostsByUser (some u) q ⟨false, true⟩ st).result =
      .error .cacheErr) := by
  have hne : (u == "") = false := by
    cases h : u == "" with
    | false => rfl
    | true =>
        have hu : u = "" := by simpa using h
        rw [hu] at hval
        exact absurd hval (by decide)
  refine ⟨⟨rfl, rfl, rfl⟩, ?_, ?_, ?_⟩
  · intro hmissAll
    simp [getAllPosts, hmissAll]
  · simp [getAllPostsByUser, jsFalsyStr, hne, hval]
  · simp [getAllPostsByUser, jsFalsyStr, hne, hval, hmissUser, hfind]

/-- Witness for c3_amended_cache_errors_propagate at the one-post state with
an empty cache and the author alice. -/
theorem c3_amended_witness :
    ((getAllPosts none ⟨true, false⟩ st1).result = .error .cacheErr
      ∧ ((getAllPosts none ⟨true, false⟩ st1).trace.all
          (fun e => !e.isDbOp)) = true
      ∧ (getAllPosts none ⟨true, false⟩ st1).st = st1)
  ∧ (cacheGetVal st1.cache (postsPageKey (pageOr1 none)) = none →
      (getAllPosts none ⟨false, true⟩ st1).result = .error .cacheErr)
  ∧ ((getAllPostsByUser (some "alice") none ⟨true, false⟩ st1).result =
      .error .cacheErr)
  ∧ ((getAllPostsByUser (some "alice") none ⟨false, true⟩ st1).result =
      .error .cacheErr) := by
  exact c3_amended_cache_errors_propagate none st1 "alice" user1
    (by decide) (by decide) (by decide)

/-- C5 (counterexample): the page parameter -5 survives the or-else
normalization (parseInt gives -5, which is truthy), so getAllPosts passes
the negative skip offset (-5 - 1) * 10 = -60 to the paged find, refuting
the claim that every page below 1 is treated as page 1 and that the skip
offset is never negative. -/
theorem c5_negative_page_not_normalized :
    pageOr1 (some "-5") = -5
  ∧ ((getAllPosts (some "-5") noFaults st1).trace.contains
      (.dbFindPosts (-60) 10)) = true := by
  decide

/-- C5 (amended): an absent page gives 1, a non-numeric page (parseInt NaN)
gives 1, and page 0 gives 1; but any other parsed integer, including
negative ones, is used as-is, and on a cache miss the paged find receives
the skip offset (page - 1) * 10, which is negative for negative pages. -/
theorem c5_amended_page_normalization (s : String) (n : Int)
    (q : Option String) (st : St) :
    pageOr1 none = 1
  ∧ (jsParseInt s = none → pageOr1 (some s) = 1)
  ∧ (jsParseInt s = some 0 → pageOr1 (some s) = 1)
  ∧ (jsParseInt s = some n → n ≠ 0 → pageOr1 (some s) = n)
  ∧ (cacheGetVal st.cache (postsPageKey (pageOr1 q)) = none →
      ((getAllPosts q noFaults st).trace.contains
        (.dbFindPosts ((pageOr1 q - 1) * 10) 10)) = true) := by
  refine ⟨rfl, ?_, ?_, ?_, ?_⟩
  · intro h; simp [pageOr1, h]
  · intro h; simp [pageOr1, h]
  · intro h hn; simp [pageOr1, h, hn]
  · intro hmiss
    simp [getAllPosts, noFaults, hmiss, POSTS_PER_PAGE_LIMIT,
      List.contains_cons]

/-- Witness for c5_amended_page_normalization at the page string -5 on the
one-post state with an empty cache. -/
theorem c5_amended_witness :
    pageOr1 none = 1
  ∧ (jsParseInt "-5" = none → pageOr1 (some "-5") = 1)
  ∧ (jsParseInt "-5" = some 0 → pageOr1 (some "-5") = 1)
  ∧ (jsParseInt "-5" = some (-5) → (-5 : Int) ≠ 0 →
      pageOr1 (some "-5") = -5)
  ∧ (cacheGetVal st1.cache (postsPageKey (pageOr1 (some "-5"))) = none →
      ((getAllPosts (some "-5") noFaults st1).trace.contains
        (.dbFindPosts ((pageOr1 (some "-5") - 1) * 10) 10)) = true) := by
  exact c5_amended_page_normalization "-5" (-5) (some "-5") st1

/-- C8: when the composed cache key is bound in the cache store (a hit),
both listing handlers deserialize and return the cached value immediately:
the effect trace contains no persistence-gateway operation and the state is
untouched. -/
theorem c8_hit_no_database (q : Option String) (u : String) (st : St)
    (v w : CacheVal)
    (hhitAll : cacheGetVal st.cache (postsPageKey (pageOr1 q)) = some v)
    (hval : validateUsername u = true)
    (hhitUser : cacheGetVal st.cache (postsUserKey u (pageOr1 q)) = some w) :
    ((getAllPosts q noFaults st).result =
        .ok (OK, "Posts fetched successfully from cache.", v)
      ∧ ((getAllPosts q noFaults st).trace.all (fun e => !e.isDbOp)) = true
      ∧ (getAllPosts q noFaults st).st = st)
  ∧ ((getAllPostsByUser (some u) q noFaults st).result =
        .ok (OK, "Posts for user " ++ u ++ " on page " ++
          toString (pageOr1 q) ++ " fetched from cache.", w)
      ∧ ((getAllPostsByUser (some u) q noFaults st).trace.all
          (fun e => !e.isDbOp)) = true
      ∧ (getAllPostsByUser (some u) q noFaults st).st = st) := by
  have hne : (u == "") = false := by
    cases h : u == "" with
    | false => rfl
    | true =>
        have hu : u = "" := by simpa using h
        rw [hu] at hval
        exact absurd hval (by decide)
  constructor
  · refine ⟨?_, ?_, ?_⟩ <;>
      simp [getAllPosts, noFaults, hhitAll, Effect.isDbOp]
  · refine ⟨?_, ?_, ?_⟩ <;>
      simp [getAllPostsByUser, noFaults, jsFalsyStr, hne, hval, hhitUser,
        Effect.isDbOp]

/-- Witness for c8_hit_no_database on the warm two-entry cache of st2 with
the default page. -/
theorem c8_witness :
    ((getAllPosts none noFaults st2).result =
        .ok (OK, "Posts fetched successfully from cache.", vAll)
      ∧ ((getAllPosts none noFaults st2).trace.all (fun e => !e.isDbOp))
          = true
      ∧ (getAllPosts none noFaults st2).st = st2)
  ∧ ((getAllPostsByUser (some "alice") none noFaults st2).result =
        .ok (OK, "Posts for user " ++ "alice" ++ " on page " ++
          toString (pageOr1 none) ++ " fetched from cache.", vAlice)
      ∧ ((getAllPostsByUser (some "alice") none noFaults st2).trace.all
          (fun e => !e.isDbOp)) = true
      ∧ (getAllPostsByUser (some "alice") none noFaults st2).st = st2) := by
  exact c8_hit_no_database none "alice" st2 vAll vAlice
    (by decide) (by decide) (by decide)

/-- C9: on the cache-miss path of getAllPostsByUser for an existing user the
handler writes the HTTP response twice, once through
response.status(OK).json(responseData) and again through
sendSuccessResponse: the trace contains exactly two response writes, and
they carry the same status code and the same listing payload. -/
theorem c9_double_response_write (u : String) (q : Option String) (st : St)
    (userDB : User)
    (hval : validateUsername u = true)
    (hmiss : cacheGetVal st.cache (postsUserKey u (pageOr1 q)) = none)
    (hfind : findUserByName st.db.users u = some userDB) :
    ((getAllPostsByUser (some u) q noFaults st).trace.filter
        Effect.isRespond).length = 2
  ∧ ((getAllPostsByUser (some u) q noFaults st).trace.filter
        Effect.isRespond).head? =
      ((getAllPostsByUser (some u) q noFaults st).trace.filter
        Effect.isRespond).getLast? := by
  have hne : (u == "") = false := by
    cases h : u == "" with
    | false => rfl
    | true =>
        have hu : u = "" := by simpa using h
        rw [hu] at hval
        exact absurd hval (by decide)
  constructor <;>
    simp [getAllPostsByUser, noFaults, jsFalsyStr, hne, hval, hmiss, hfind,
      Effect.isRespond, List.filter]

/-- Witness for c9_double_response_write: alice on the one-post state with a
cold cache. -/
theorem c9_witness :
    ((getAllPostsByUser (some "alice") none noFaults st1).trace.filter
        Effect.isRespond).length = 2
  ∧ ((getAllPostsByUser (some "alice") none noFaults st1).trace.filter
        Effect.isRespond).head? =
      ((getAllPostsByUser (some "alice") none noFaults st1).trace.filter
        Effect.isRespond).getLast? := by
  exact c9_double_response_write "alice" none st1 user1
    (by decide) (by decide) (by decide)

/-- C4: for a fixed database state, running a listing request against a cold
cache (the miss-populate path) and then running the same request again (the
hit path, deserializing the just-written entry) yields the identical
listing payload, item order included, for both the global listing and the
author-scoped listing. -/
theorem c4_cold_warm_identical (db : Db) (q : Option String) (u : String)
    (userDB : User)
    (hval : validateUsername u = true)
    (hfind : findUserByName db.users u = some userDB) :
    (∃ v, (getAllPosts q noFaults ⟨db, []⟩).result =
          .ok (OK, "Posts fetched successfully.", v)
        ∧ (getAllPosts q noFaults (getAllPosts q noFaults ⟨db, []⟩).st).result
          = .ok (OK, "Posts fetched successfully from cache.", v))
  ∧ (∃ w, (getAllPostsByUser (some u) q noFaults ⟨db, []⟩).result =
          .ok (OK, "Posts for user " ++ u ++ " on page " ++
            toString (pageOr1 q) ++ " fetched successfully!", w)
        ∧ (getAllPostsByUser (some u) q noFaults
            (getAllPostsByUser (some u) q noFaults ⟨db, []⟩).st).result =
          .ok (OK, "Posts for user " ++ u ++ " on page " ++
            toString (pageOr1 q) ++ " fetched from cache.", w)) := by
  have hne : (u == "") = false := by
    cases h : u == "" with
    | false => rfl
    | true =>
        have hu : u = "" := by simpa using h
        rw [hu] at hval
        exact absurd hval (by decide)
  constructor
  · refine ⟨_, rfl, ?_⟩
    simp [getAllPosts, noFaults, cacheGetVal, cacheSetVal]
  · refine ⟨.userListing
      ⟨findPage (db.posts.filter (fun p => p.author_id == userDB.id))
          ((pageOr1 q - 1) * (POSTS_PER_PAGE_LIMIT : Nat))
          POSTS_PER_PAGE_LIMIT,
        pageOr1 q,
        ceilOfDiv (db.posts.filter
          (fun p => p.author_id == userDB.id)).length POSTS_PER_PAGE_LIMIT,
        (db.posts.filter (fun p => p.author_id == userDB.id)).length⟩,
      ?_, ?_⟩
    · simp [getAllPostsByUser, noFaults, jsFalsyStr, hne, hval,
        cacheGetVal, hfind]
    · simp [getAllPostsByUser, noFaults, jsFalsyStr, hne, hval,
        cacheGetVal, cacheSetVal, hfind]

/-- Witness for c4_cold_warm_identical: the one-user one-post database with
the default page and the author alice. -/
theorem c4_witness :
    (∃ v, (getAllPosts none noFaults ⟨⟨[user1], [post1]⟩, []⟩).result =
          .ok (OK, "Posts fetched successfully.", v)
        ∧ (getAllPosts none noFaults
            (getAllPosts none noFaults ⟨⟨[user1], [post1]⟩, []⟩).st).result
          = .ok (OK, "Posts fetched successfully from cache.", v))
  ∧ (∃ w, (getAllPostsByUser (some "alice") none noFaults
            ⟨⟨[user1], [post1]⟩, []⟩).result =
          .ok (OK, "Posts for user " ++ "alice" ++ " on page " ++
            toString (pageOr1 none) ++ " fetched successfully!", w)
        ∧ (getAllPostsByUser (some "alice") none noFaults
            (getAllPostsByUser (some "alice") none noFaults
              ⟨⟨[user1], [post1]⟩, []⟩).st).result =
          .ok (OK, "Posts for user " ++ "alice" ++ " on page " ++
            toString (pageOr1 none) ++ " fetched from cache.", w)) := by
  exact c4_cold_warm_identical ⟨[user1], [post1]⟩ none "alice" user1
    (by decide) (by decide)

/-- A successful cache lookup on a cache whose every entry satisfies the
pagination invariant returns an invariant-satisfying value. -/
theorem listingOK_of_cacheGet {c : Cache} {k : String} {v : CacheVal}
    (hc : cacheOK c) (h : cacheGetVal c k = some v) : listingOK v := by
  induction c with
  | nil => simp [cacheGetVal] at h
  | cons kv rest ih =>
      rcases kv with ⟨k', v'⟩
      by_cases hk : (k' == k) = true
      · simp [cacheGetVal, hk] at h
        subst h
        exact hc (k', v') (by simp)
      · simp [cacheGetVal, hk] at h
        exact ih (fun kv hm => hc kv (List.mem_cons_of_mem _ hm)) h

/-- A paged find returns at most the page-size limit of items. -/
theorem findPage_length_le (ps : List Post) (sk : Int) (lim : Nat) :
    (findPage ps sk lim).length ≤ lim := by
  simp only [findPage]
  exact List.length_take_le _ _

/-- C6: every listing payload a handler returns (from the cache or freshly
computed) satisfies the pagination invariant totalPages equal to the ceiling
of totalPosts over the page size with at most ten items; concretely, a
95-post database yields totalPages 10 with 10 items on page one, and an
empty database yields totalPages 0 with no items. -/
theorem c6_pagination_invariant (q : Option String) (u : Option String)
    (st : St) (hc : cacheOK st.cache) :
    (∀ code msg v, (getAllPosts q noFaults st).result = .ok (code, msg, v) →
      listingOK v)
  ∧ (∀ code msg v,
      (getAllPostsByUser u q noFaults st).result = .ok (code, msg, v) →
      listingOK v)
  ∧ (resultTotalPages (getAllPosts none noFaults
        ⟨⟨[], List.replicate 95 post1⟩, []⟩).result = some 10
      ∧ resultTotalPosts (getAllPosts none noFaults
          ⟨⟨[], List.replicate 95 post1⟩, []⟩).result = some 95
      ∧ resultItemCount (getAllPosts none noFaults
          ⟨⟨[], List.replicate 95 post1⟩, []⟩).result = some 10)
  ∧ (resultTotalPages (getAllPosts none noFaults ⟨⟨[], []⟩, []⟩).result =
        some 0
      ∧ resultTotalPosts (getAllPosts none noFaults ⟨⟨[], []⟩, []⟩).result =
        some 0
      ∧ resultItemCount (getAllPosts none noFaults ⟨⟨[], []⟩, []⟩).result =
        some 0) := by
  refine ⟨?_, ?_, by decide, by decide⟩
  · intro code msg v hr
    cases hget : cacheGetVal st.cache (postsPageKey (pageOr1 q)) with
    | some w =>
        simp [getAllPosts, noFaults, hget] at hr
        obtain ⟨h1, h2, h3⟩ := hr
        subst h3
        exact listingOK_of_cacheGet hc hget
    | none =>
        simp [getAllPosts, noFaults, hget] at hr
        obtain ⟨h1, h2, h3⟩ := hr
        subst h3
        refine ⟨rfl, ?_⟩
        simpa using findPage_length_le _ _ _
  · intro code msg v hr
    cases hfalsy : jsFalsyStr u with
    | true => simp [getAllPostsByUser, hfalsy] at hr
    | false =>
        cases hval2 : validateUsername (u.getD "") with
        | false => simp [getAllPostsByUser, hfalsy, hval2] at hr
        | true =>
            cases hget : cacheGetVal st.cache
                (postsUserKey (u.getD "") (pageOr1 q)) with
            | some w =>
                simp [getAllPostsByUser, hfalsy, hval2, noFaults, hget] at hr
                obtain ⟨h1, h2, h3⟩ := hr
                subst h3
                exact listingOK_of_cacheGet hc hget
            | none =>
                cases hfindu : findUserByName st.db.users (u.getD "") with
                | none =>
                    simp [getAllPostsByUser, hfalsy, hval2, noFaults, hget,
                      hfindu] at hr
                | some userDB =>
                    simp [getAllPostsByUser, hfalsy, hval2, noFaults, hget,
                      hfindu] at hr
                    obtain ⟨h1, h2, h3⟩ := hr
                    subst h3
                    exact ⟨rfl, findPage_length_le _ _ _⟩

/-- Witness for c6_pagination_invariant: the payload computed for the
one-post database on the default page satisfies the invariant. -/
theorem c6_witness :
    listingOK (CacheVal.allListing
      ⟨[⟨"p1", "Hello", "World", some user1, 5⟩], 1, 1, 1⟩) := by
  exact (c6_pagination_invariant none (some "alice") st1
      (fun kv hm => absurd hm (List.not_mem_nil kv))).1
    OK "Posts fetched successfully."
    (CacheVal.allListing ⟨[⟨"p1", "Hello", "World", some user1, 5⟩], 1, 1, 1⟩)
    (by decide)

/-- C10: whenever createPost, editPost or deletePost terminates with a
thrown error (authentication, validation, authorization or not-found), the
database and the cache are left exactly as they were, and the effect trace
contains neither a database mutation nor any cache-invalidation operation:
the clearPostCache call and the mutation are reached only after every
precondition check has passed. -/
theorem c10_error_paths_frame (creq : CreateReq) (ereq : EditReq)
    (dreq : DeleteReq) (newId : String) (now : Nat) (st : St)
    (e1 e2 e3 : HErr) :
    ((createPost creq newId now st).result = .error e1 →
      (createPost creq newId now st).st = st
      ∧ ((createPost creq newId now st).trace.all
          (fun ef => !ef.isDbWrite && !ef.isInvalidation)) = true)
  ∧ ((editPost ereq st).result = .error e2 →
      (editPost ereq st).st = st
      ∧ ((editPost ereq st).trace.all
          (fun ef => !ef.isDbWrite && !ef.isInvalidation)) = true)
  ∧ ((deletePost dreq st).result = .error e3 →
      (deletePost dreq st).st = st
      ∧ ((deletePost dreq st).trace.all
          (fun ef => !ef.isDbWrite && !ef.isInvalidation)) = true) := by
  refine ⟨?_, ?_, ?_⟩
  · unfold createPost
    split
    · exact fun _ => ⟨rfl, rfl⟩
    · split
      · exact fun _ => ⟨rfl, rfl⟩
      · split
        · exact fun _ => ⟨rfl, rfl⟩
        · split
          · dsimp only
            split
            · exact fun _ => ⟨rfl, rfl⟩
            · split
              · exact fun _ => ⟨rfl, rfl⟩
              · split
                · exact fun _ => ⟨rfl, rfl⟩
                · intro h; simp at h
          · exact fun _ => ⟨rfl, rfl⟩
  · unfold editPost
    try dsimp only
    split
    · exact fun _ => ⟨rfl, rfl⟩
    · split
      · try dsimp only
        split
        · exact fun _ => ⟨rfl, rfl⟩
        · split
          · exact fun _ => ⟨rfl, rfl⟩
          · split
            · exact fun _ => ⟨rfl, rfl⟩
            · split
              · exact fun _ => ⟨rfl, rfl⟩
              · split
                · exact fun _ => ⟨rfl, rfl⟩
                · intro h; simp at h
      · exact fun _ => ⟨rfl, rfl⟩
  · unfold deletePost
    try dsimp only
    split
    · exact fun _ => ⟨rfl, rfl⟩
    · split
      · exact fun _ => ⟨rfl, rfl⟩
      · split
        · exact fun _ => ⟨rfl, rfl⟩
        · intro h; simp at h

/-- Witness for c10_error_paths_frame: unauthenticated createPost, editPost
and deletePost attempts leave the one-post state untouched with no mutation
or invalidation effect. -/
theorem c10_witness :
    ((createPost ⟨.str "T", .str "C", none⟩ "p9" 10 st1).st = st1
      ∧ ((createPost ⟨.str "T", .str "C", none⟩ "p9" 10 st1).trace.all
          (fun ef => !ef.isDbWrite && !ef.isInvalidation)) = true)
  ∧ ((editPost ⟨.str "T", .str "C", "p1", none⟩ st1).st = st1
      ∧ ((editPost ⟨.str "T", .str "C", "p1", none⟩ st1).trace.all
          (fun ef => !ef.isDbWrite && !ef.isInvalidation)) = true)
  ∧ ((deletePost ⟨"p1", none⟩ st1).st = st1
      ∧ ((deletePost ⟨"p1", none⟩ st1).trace.all
          (fun ef => !ef.isDbWrite && !ef.isInvalidation)) = true) := by
  have h := c10_error_paths_frame ⟨.str "T", .str "C", none⟩
    ⟨.str "T", .str "C", "p1", none⟩ ⟨"p1", none⟩ "p9" 10 st1
    (.api ⟨"Authentication required to create a post.", UNAUTHORIZED,
      "UNAUTHORIZED_AUTHOR_ID"⟩)
    (.api ⟨"Authentication required to edit a post.", UNAUTHORIZED,
      "UNAUTHORIZED_EDIT"⟩)
    (.api ⟨"Authentication required to delete a post.", UNAUTHORIZED,
      "UNAUTHORIZED_DELETE"⟩)
  exact ⟨h.1 (by decide), h.2.1 (by decide), h.2.2 (by decide)⟩

end Blog
